import Mathlib

/-!
Shallow embedding of the GhostMail bot core (src/bot.py) and verification of
its specified properties.

The embedding models:
* `Inbox` and its JSON persistence shape (`Inbox.to_json` / `Inbox.from_json`,
  bot.py lines 68-87);
* the resilient mail.tm client wrapper (`refresh_token`, `safe_get`,
  `safe_delete`, bot.py lines 213-229) over an explicit provider environment;
* mailbox provisioning (`create_inbox` / the `new_cmd` handler,
  bot.py lines 231-244 and 329-351);
* the fetch-latest cores of the `/inbox` handler (`inbox_fetch`, from
  `inbox_cmd`, bot.py lines 367-434) and of the background notifier
  (`notify_fetch`, from `notify_newest`, bot.py lines 529-569);
* the access gate (`is_member` / `joined_both`, bot.py lines 265-273);
* one tick of the poller loop (`poll_tick`, from `poll_loop`,
  bot.py lines 571-580).

External effects (HTTP calls, randomness, chat transport) are passed in as
explicit data: each fallible provider call is a field of an environment
record giving that call's outcome, and each random draw is an index stream.
-/

namespace GhostMail

/-- Python truthiness of an optional string: `None` and `""` are falsy.
Mirrors checks such as `if not mid` in bot.py. -/
def strTruthy : Option String → Bool
  | none => false
  | some s => !s.isEmpty

/-- Python `x or default` for an optional string field: `None` and `""`
are replaced by the default.  Mirrors e.g. `full.get("subject") or "(no subject)"`. -/
def orElseStr (v : Option String) (d : String) : String :=
  match v with
  | none => d
  | some s => if s.isEmpty then d else s

/-- The per-user mailbox record (`Inbox` dataclass, bot.py lines 68-73).
Python's `set` of seen message ids is modelled as a `Finset String`. -/
structure Inbox where
  address : String
  password : String
  token : String
  seen_message_ids : Finset String
deriving DecidableEq

/-- The persisted JSON shape of an `Inbox` (one value of the `state.json`
mapping).  `token` and `seen_message_ids` are optional in the stored dict —
`from_json` reads them with `d.get(..., default)` (bot.py lines 80-87) —
while `address` and `password` are required keys. -/
structure InboxJson where
  address : String
  password : String
  token : Option String
  seen_message_ids : Option (List String)
deriving DecidableEq

/-- `Inbox.to_json` (bot.py lines 75-78): `asdict` with the seen-id set
serialized as a list.  Python's `list(set)` enumerates the set in an
unspecified order; the embedding picks the sorted enumeration, and the
round-trip theorem additionally covers every permutation of it. -/
def Inbox.to_json (i : Inbox) : InboxJson :=
  { address := i.address
    password := i.password
    token := some i.token
    seen_message_ids := some (i.seen_message_ids.sort (· ≤ ·)) }

/-- `Inbox.from_json` (bot.py lines 80-87): required `address`/`password`,
`token` defaulting to `""`, and the seen-id list read back as a set. -/
def Inbox.from_json (j : InboxJson) : Inbox :=
  { address := j.address
    password := j.password
    token := (j.token.getD "")
    seen_message_ids := (j.seen_message_ids.getD []).toFinset }

/-- One entry of the provider's message listing (`RemoteMessageSummary`);
only the `id` field is consulted by the core.  `newest.get("id")` can be
missing (`none`) or empty. -/
structure Msg where
  id : Option String
deriving DecidableEq

/-- The full message fetched by `get_message` (`RemoteMessageFull`); the
fields the core reads, each optional as in the JSON payload. -/
structure Full where
  subject : Option String
  fromAddress : Option String
  fromName : Option String
  text : Option String
deriving DecidableEq

/-- The provider-visible state of one fetch-latest operation: the (already
successful) listing, the outcome of `get_message`, the outcome of
`get_message_source`, and which provider-side deletions would fail.
`Except.error ()` stands for the call raising. -/
structure ProviderView where
  msgs : List Msg
  full : Except Unit Full
  source : Except Unit String
  deleteFails : String → Bool

/-- The first listed message's id, if any (`msgs[0].get("id")`). -/
def newestId (pv : ProviderView) : Option String :=
  match pv.msgs with
  | [] => none
  | newest :: _ => newest.id

/-- The ids the deletion loop passes to `safe_delete` (bot.py lines 426-432
and 562-568): every listed message whose id is truthy. -/
def deletionTargets (msgs : List Msg) : List String :=
  msgs.filterMap fun m =>
    match m.id with
    | none => none
    | some s => if s.isEmpty then none else some s

/-- Normalized outcome of the `/inbox` fetch core. -/
inductive InboxOutcome
  | empty
  | couldNotRead
  | noNewMail
  | newMail (fromLine subject body : String)
deriving DecidableEq

/-- The `from_line` rendered by both fetch paths (bot.py lines 396-399 and
544-547): `f"{name} <{addr}>"` when a sender name is present, else
`f"<{addr}>"`, with falsy fields defaulted. -/
def from_line (full : Full) : String :=
  let fromAddr := orElseStr full.fromAddress "unknown"
  let fromName := orElseStr full.fromName ""
  if fromName = "" then "<" ++ fromAddr ++ ">"
  else fromName ++ " <" ++ fromAddr ++ ">"

/-- The rendered subject (`full.get("subject") or "(no subject)"`,
bot.py lines 395 and 543). -/
def subject_line (full : Full) : String :=
  orElseStr full.subject "(no subject)"

/-- Python `str.strip()`: drop whitespace from both ends.  Defined
structurally over the character list so that concrete values compute. -/
def pyStrip (s : String) : String :=
  String.mk
    (((s.data.dropWhile Char.isWhitespace).reverse.dropWhile
      Char.isWhitespace).reverse)

/-- Body extraction of `inbox_cmd` (bot.py lines 401-406): the stripped
structured text; when blank, the stripped raw source, the source fetch
guarded by `try/except` that substitutes the literal placeholder. -/
def inboxBody (full : Full) (source : Except Unit String) : String :=
  let body0 := pyStrip (orElseStr full.text "")
  if body0 = "" then
    match source with
    | Except.ok src => pyStrip src
    | Except.error _ => "(no body)"
  else body0

/-- Body extraction of `notify_newest` (bot.py lines 549-551): the stripped
structured text; when blank, `(await get_message_source(...)).strip() or
"(no body)"` with *no* exception guard, so a failing source fetch raises. -/
def notifyBodyE (full : Full) (source : Except Unit String) :
    Except Unit String :=
  let body0 := pyStrip (orElseStr full.text "")
  if body0 = "" then
    match source with
    | Except.error e => Except.error e
    | Except.ok src =>
      Except.ok (if pyStrip src = "" then "(no body)" else pyStrip src)
  else Except.ok body0

/-- The fetch-latest core of `inbox_cmd` (bot.py lines 378-434), for a user
that has an inbox and passed the gate.  Returns the user-facing outcome, the
updated record, and the list of ids requested for provider-side deletion;
`Except.error ()` models the handler raising (a failed `get_message`).
Deletion requests are issued inside `try/except: pass`, so `deleteFails`
is never consulted. -/
def inbox_fetch (pv : ProviderView) (inbox : Inbox) :
    Except Unit (InboxOutcome × Inbox × List String) :=
  match pv.msgs with
  | [] => Except.ok (InboxOutcome.empty, inbox, [])
  | newest :: _ =>
    match newest.id with
    | none => Except.ok (InboxOutcome.couldNotRead, inbox, [])
    | some mid =>
      if mid = "" then Except.ok (InboxOutcome.couldNotRead, inbox, [])
      else if mid ∈ inbox.seen_message_ids then
        Except.ok (InboxOutcome.noNewMail, inbox, deletionTargets pv.msgs)
      else
        match pv.full with
        | Except.error e => Except.error e
        | Except.ok full =>
          Except.ok
            (InboxOutcome.newMail (from_line full) (subject_line full)
              (inboxBody full pv.source),
            { inbox with seen_message_ids := insert mid inbox.seen_message_ids },
            deletionTargets pv.msgs)

/-- Outcome of one `notify_newest` run: either nothing was sent, or a
rendered triple was delivered. -/
inductive NotifyOutcome
  | silent
  | delivered (fromLine subject body : String)
deriving DecidableEq

/-- The fetch-latest core of `notify_newest` (bot.py lines 529-569) for a
user with an inbox.  Differences from `inbox_fetch`, straight from the
source: the early `return` on a falsy or already-seen id happens *before*
the deletion loop, and the raw-source fallback has no `try/except`, so a
failing `get_message_source` raises. -/
def notify_fetch (pv : ProviderView) (inbox : Inbox) :
    Except Unit (NotifyOutcome × Inbox × List String) :=
  match pv.msgs with
  | [] => Except.ok (NotifyOutcome.silent, inbox, [])
  | newest :: _ =>
    match newest.id with
    | none => Except.ok (NotifyOutcome.silent, inbox, [])
    | some mid =>
      if mid = "" then Except.ok (NotifyOutcome.silent, inbox, [])
      else if mid ∈ inbox.seen_message_ids then
        Except.ok (NotifyOutcome.silent, inbox, [])
      else
        match pv.full with
        | Except.error e => Except.error e
        | Except.ok full =>
          match notifyBodyE full pv.source with
          | Except.error e => Except.error e
          | Except.ok body =>
            Except.ok
              (NotifyOutcome.delivered (from_line full) (subject_line full) body,
              { inbox with seen_message_ids := insert mid inbox.seen_message_ids },
              deletionTargets pv.msgs)

/-- A sequence of fetch-latest calls on the same mailbox record, one
provider view per call, threading the record through.  A call that raises
leaves the record unchanged (in `inbox_cmd`, `get_message` is reached before
any mutation of `seen_message_ids`). -/
def fetchSeq (i : Inbox) : List ProviderView → List (Except Unit InboxOutcome) × Inbox
  | [] => ([], i)
  | pv :: rest =>
    match inbox_fetch pv i with
    | Except.ok (o, i', _) =>
      let r := fetchSeq i' rest
      (Except.ok o :: r.1, r.2)
    | Except.error e =>
      let r := fetchSeq i rest
      (Except.error e :: r.1, r.2)

/-! ### The resilient mail.tm client wrapper (bot.py lines 183-229) -/

/-- Failure classes of a raw provider call.  `mailtm_get`/`mailtm_post`/
`mailtm_delete` raise a plain `RuntimeError` for every non-success response,
so the wrapper code cannot (and does not) distinguish these. -/
inductive PErr
  | auth
  | net
  | http
  | badPayload
deriving DecidableEq

/-- Provider environment for one wrapped GET call: the outcome of
`mailtm_get` as a function of the bearer token attached, and the outcome of
`POST /token` with the record's address and password. -/
structure ClientEnv (α : Type) where
  getResult : String → Except PErr α
  tokenResult : Except PErr String

/-- How many raw attempts of the original call and how many
re-authentications a wrapped call performed. -/
structure CallCounts where
  getAttempts : Nat
  reauthAttempts : Nat
deriving DecidableEq

/-- `refresh_token` (bot.py lines 213-215): exchange address+password for a
fresh token and store it on the record; a failing `POST /token` raises. -/
def refresh_token (tokenResult : Except PErr String) (i : Inbox) :
    Except PErr Inbox :=
  match tokenResult with
  | Except.error e => Except.error e
  | Except.ok t => Except.ok { i with token := t }

/-- `safe_get` (bot.py lines 217-222): try `mailtm_get` with the current
token; on *any* exception, refresh the token and retry exactly once, the
retry's (or the refresh's) exception propagating to the caller.  Returns the
call result, the (possibly token-updated) record, and the attempt counts. -/
def safe_get (env : ClientEnv α) (i : Inbox) :
    Except PErr α × Inbox × CallCounts :=
  match env.getResult i.token with
  | Except.ok a => (Except.ok a, i, ⟨1, 0⟩)
  | Except.error _ =>
    match refresh_token env.tokenResult i with
    | Except.error e => (Except.error e, i, ⟨1, 1⟩)
    | Except.ok i' =>
      match env.getResult i'.token with
      | Except.ok a => (Except.ok a, i', ⟨2, 1⟩)
      | Except.error e => (Except.error e, i', ⟨2, 1⟩)

/-- Provider environment for one wrapped DELETE call, mirroring
`ClientEnv`. -/
structure DeleteEnv where
  deleteResult : String → Except PErr Unit
  tokenResult : Except PErr String

/-- `safe_delete` (bot.py lines 224-229): identical retry-once shape to
`safe_get`. -/
def safe_delete (env : DeleteEnv) (i : Inbox) :
    Except PErr Unit × Inbox × CallCounts :=
  match env.deleteResult i.token with
  | Except.ok a => (Except.ok a, i, ⟨1, 0⟩)
  | Except.error _ =>
    match refresh_token env.tokenResult i with
    | Except.error e => (Except.error e, i, ⟨1, 1⟩)
    | Except.ok i' =>
      match env.deleteResult i'.token with
      | Except.ok a => (Except.ok a, i', ⟨2, 1⟩)
      | Except.error e => (Except.error e, i', ⟨2, 1⟩)

/-! ### Provisioning (bot.py lines 231-244 and 329-351) -/

/-- `string.ascii_lowercase + string.digits`, the alphabet of the random
local-part. -/
def lowercaseDigits : List Char :=
  "abcdefghijklmnopqrstuvwxyz0123456789".toList

/-- `string.ascii_letters + string.digits`, the alphabet of the random
password. -/
def lettersDigits : List Char :=
  "abcdefghijklmnopqrstuvwxyzABCDEFGHIJKLMNOPQRSTUVWXYZ0123456789".toList

/-- `secrets.choice(alphabet)` with the random draw supplied as a natural
number: a uniform index into the alphabet. -/
def secretsChoice (alphabet : List Char) (draw : Nat) : Char :=
  alphabet.getD (draw % alphabet.length) 'a'

/-- `"".join(secrets.choice(alphabet) for _ in range(n))` with the draws
supplied as a stream. -/
def randomString (alphabet : List Char) (draws : Nat → Nat) (n : Nat) : String :=
  String.mk ((List.range n).map fun k => secretsChoice alphabet (draws k))

/-- Environment of one `create_inbox` run: the domain listing returned by
`GET /domains`, the two random streams, and the outcomes of the
`POST /accounts` and `POST /token` calls. -/
structure ProvisionEnv where
  domains : List String
  localDraws : Nat → Nat
  passDraws : Nat → Nat
  accountsOk : Bool
  tokenResult : Except Unit String

/-- `create_inbox` (bot.py lines 231-244): first listed domain, random
10-char local-part over lowercase+digits, random 16-char password over
letters+digits, account and token creation, and a fresh record with an
empty seen set.  Any provider failure (no domains, failed POST) raises. -/
def create_inbox (env : ProvisionEnv) : Except Unit Inbox :=
  match env.domains with
  | [] => Except.error ()
  | d :: _ =>
    let localPart := randomString lowercaseDigits env.localDraws 10
    let address := localPart ++ "@" ++ d
    let password := randomString lettersDigits env.passDraws 16
    if env.accountsOk then
      match env.tokenResult with
      | Except.error e => Except.error e
      | Except.ok tok =>
        Except.ok { address := address
                    password := password
                    token := tok
                    seen_message_ids := ∅ }
    else Except.error ()

/-- The record store `STATE`: a finite mapping from user-id string to
`Inbox`, modelled as a function (a Python dict holds at most one value per
key). -/
def StateMap : Type := String → Option Inbox

/-- Provisioning failures: the pre-existing-record refusal of `new_cmd`, or
a raising `create_inbox`. -/
inductive ProvisionErr
  | alreadyExists
  | providerFailure
deriving DecidableEq

/-- The provisioning core of `new_cmd` (bot.py lines 329-351): refuse when a
record already exists, otherwise create an inbox and store it under the
user's key. -/
def provision (st : StateMap) (uid : String) (env : ProvisionEnv) :
    Except ProvisionErr (Inbox × StateMap) :=
  match st uid with
  | some _ => Except.error ProvisionErr.alreadyExists
  | none =>
    match create_inbox env with
    | Except.error _ => Except.error ProvisionErr.providerFailure
    | Except.ok inbox =>
      Except.ok (inbox, fun u => if u = uid then some inbox else st u)

/-! ### The access gate (bot.py lines 257-294) -/

/-- Telegram `ChatMemberStatus` values. -/
inductive MemberStatus
  | member
  | administrator
  | owner
  | left
  | banned
  | restricted
deriving DecidableEq

/-- `is_member` (bot.py lines 265-270): the membership query's outcome is
`none` when `get_chat_member` raises (network error, no visibility, unknown
user) and `some status` otherwise; any exception yields `false`. -/
def is_member (query : Option MemberStatus) : Bool :=
  match query with
  | none => false
  | some s =>
    decide (s = MemberStatus.member ∨ s = MemberStatus.administrator ∨
      s = MemberStatus.owner)

/-- `joined_both` (bot.py lines 272-273): membership in both fixed channels. -/
def joined_both (q1 q2 : Option MemberStatus) : Bool :=
  is_member q1 && is_member q2

/-- A query outcome counting as active membership: a successful reply with
status member, administrator or owner. -/
def activeStatus : Option MemberStatus → Prop
  | none => False
  | some s =>
    s = MemberStatus.member ∨ s = MemberStatus.administrator ∨
      s = MemberStatus.owner

instance : DecidablePred activeStatus := fun q => by
  cases q with
  | none => exact inferInstanceAs (Decidable False)
  | some s => exact inferInstanceAs (Decidable (_ ∨ _ ∨ _))

/-! ### One poller tick (bot.py lines 571-580) -/

/-- One tick of `poll_loop`: iterate the record-store keys in order, skip
users whose cached `verified` flag is not set, and run `notify_newest` for
the rest.  The `try/except` sits *outside* the `for` loop, so the first
exception ends the tick (the loop itself survives to the next tick).
Returns the users whose `notify_newest` ran to completion in this tick. -/
def poll_tick (uids : List String) (verified : String → Bool)
    (notify : String → Except Unit Unit) : List String :=
  match uids with
  | [] => []
  | u :: rest =>
    if verified u then
      match notify u with
      | Except.ok _ => u :: poll_tick rest verified notify
      | Except.error _ => []
    else poll_tick rest verified notify

/-! ### Branch lemmas for the two fetch cores -/

theorem newestId_some (pv : ProviderView) (m : String)
    (h : newestId pv = some m) :
    ∃ newest rest, pv.msgs = newest :: rest ∧ newest.id = some m := by
  cases hmsgs : pv.msgs with
  | nil =>
    rw [newestId, hmsgs] at h
    exact Option.noConfusion h
  | cons newest rest =>
    rw [newestId, hmsgs] at h
    exact ⟨newest, rest, rfl, h⟩

theorem inbox_fetch_empty (pv : ProviderView) (i : Inbox) (h : pv.msgs = []) :
    inbox_fetch pv i = Except.ok (InboxOutcome.empty, i, []) := by
  simp [inbox_fetch, h]

theorem inbox_fetch_seen (pv : ProviderView) (i : Inbox) (m : String)
    (h1 : newestId pv = some m) (h2 : m ≠ "")
    (h3 : m ∈ i.seen_message_ids) :
    inbox_fetch pv i =
      Except.ok (InboxOutcome.noNewMail, i, deletionTargets pv.msgs) := by
  obtain ⟨newest, rest, hmsgs, hid⟩ := newestId_some pv m h1
  simp [inbox_fetch, hmsgs, hid, h2, h3]

theorem inbox_fetch_unseen (pv : ProviderView) (i : Inbox) (m : String)
    (full : Full) (h1 : newestId pv = some m) (h2 : m ≠ "")
    (h3 : m ∉ i.seen_message_ids) (h4 : pv.full = Except.ok full) :
    inbox_fetch pv i = Except.ok
      (InboxOutcome.newMail (from_line full) (subject_line full)
        (inboxBody full pv.source),
       { i with seen_message_ids := insert m i.seen_message_ids },
       deletionTargets pv.msgs) := by
  obtain ⟨newest, rest, hmsgs, hid⟩ := newestId_some pv m h1
  simp [inbox_fetch, hmsgs, hid, h2, h3, h4]

theorem notify_fetch_empty (pv : ProviderView) (i : Inbox) (h : pv.msgs = []) :
    notify_fetch pv i = Except.ok (NotifyOutcome.silent, i, []) := by
  simp [notify_fetch, h]

theorem notify_fetch_seen (pv : ProviderView) (i : Inbox) (m : String)
    (h1 : newestId pv = some m) (h2 : m ≠ "")
    (h3 : m ∈ i.seen_message_ids) :
    notify_fetch pv i = Except.ok (NotifyOutcome.silent, i, []) := by
  obtain ⟨newest, rest, hmsgs, hid⟩ := newestId_some pv m h1
  simp [notify_fetch, hmsgs, hid, h2, h3]

theorem notify_fetch_unseen (pv : ProviderView) (i : Inbox) (m : String)
    (full : Full) (body : String) (h1 : newestId pv = some m) (h2 : m ≠ "")
    (h3 : m ∉ i.seen_message_ids) (h4 : pv.full = Except.ok full)
    (h5 : notifyBodyE full pv.source = Except.ok body) :
    notify_fetch pv i = Except.ok
      (NotifyOutcome.delivered (from_line full) (subject_line full) body,
       { i with seen_message_ids := insert m i.seen_message_ids },
       deletionTargets pv.msgs) := by
  obtain ⟨newest, rest, hmsgs, hid⟩ := newestId_some pv m h1
  simp [notify_fetch, hmsgs, hid, h2, h3, h4, h5]

theorem inbox_fetch_no_id (pv : ProviderView) (i : Inbox) (newest : Msg)
    (rest : List Msg) (hmsgs : pv.msgs = newest :: rest)
    (hid : strTruthy newest.id = false) :
    inbox_fetch pv i = Except.ok (InboxOutcome.couldNotRead, i, []) := by
  cases hval : newest.id with
  | none => simp [inbox_fetch, hmsgs, hval]
  | some s =>
    have hs : s = "" := by
      rw [hval] at hid
      simp [strTruthy, String.isEmpty_iff] at hid
      exact hid
    simp [inbox_fetch, hmsgs, hval, hs]

theorem notify_fetch_no_id (pv : ProviderView) (i : Inbox) (newest : Msg)
    (rest : List Msg) (hmsgs : pv.msgs = newest :: rest)
    (hid : strTruthy newest.id = false) :
    notify_fetch pv i = Except.ok (NotifyOutcome.silent, i, []) := by
  cases hval : newest.id with
  | none => simp [notify_fetch, hmsgs, hval]
  | some s =>
    have hs : s = "" := by
      rw [hval] at hid
      simp [strTruthy, String.isEmpty_iff] at hid
      exact hid
    simp [notify_fetch, hmsgs, hval, hs]

theorem notify_fetch_body_error (pv : ProviderView) (i : Inbox) (m : String)
    (full : Full) (h1 : newestId pv = some m) (h2 : m ≠ "")
    (h3 : m ∉ i.seen_message_ids) (h4 : pv.full = Except.ok full)
    (h5 : notifyBodyE full pv.source = Except.error ()) :
    notify_fetch pv i = Except.error () := by
  obtain ⟨newest, rest, hmsgs, hid⟩ := newestId_some pv m h1
  simp [notify_fetch, hmsgs, hid, h2, h3, h4, h5]

/-! ### Branch lemmas for the client wrapper -/

theorem safe_get_first_ok {α : Type} (env : ClientEnv α) (i : Inbox) (a : α)
    (hres : env.getResult i.token = Except.ok a) :
    safe_get env i = (Except.ok a, i, ⟨1, 0⟩) := by
  simp [safe_get, hres]

theorem safe_get_refresh_fail {α : Type} (env : ClientEnv α) (i : Inbox)
    (e e2 : PErr) (hres : env.getResult i.token = Except.error e)
    (htok : env.tokenResult = Except.error e2) :
    safe_get env i = (Except.error e2, i, ⟨1, 1⟩) := by
  simp [safe_get, refresh_token, hres, htok]

theorem safe_get_retry {α : Type} (env : ClientEnv α) (i : Inbox)
    (e : PErr) (t : String) (hres : env.getResult i.token = Except.error e)
    (htok : env.tokenResult = Except.ok t) :
    safe_get env i = (env.getResult t, { i with token := t }, ⟨2, 1⟩) := by
  cases hres2 : env.getResult t with
  | ok a => simp [safe_get, refresh_token, hres, htok, hres2]
  | error e2 => simp [safe_get, refresh_token, hres, htok, hres2]

theorem safe_delete_first_ok (env : DeleteEnv) (i : Inbox)
    (hres : env.deleteResult i.token = Except.ok ()) :
    safe_delete env i = (Except.ok (), i, ⟨1, 0⟩) := by
  simp [safe_delete, hres]

theorem safe_delete_refresh_fail (env : DeleteEnv) (i : Inbox)
    (e e2 : PErr) (hres : env.deleteResult i.token = Except.error e)
    (htok : env.tokenResult = Except.error e2) :
    safe_delete env i = (Except.error e2, i, ⟨1, 1⟩) := by
  simp [safe_delete, refresh_token, hres, htok]

theorem safe_delete_retry (env : DeleteEnv) (i : Inbox)
    (e : PErr) (t : String) (hres : env.deleteResult i.token = Except.error e)
    (htok : env.tokenResult = Except.ok t) :
    safe_delete env i = (env.deleteResult t, { i with token := t }, ⟨2, 1⟩) := by
  cases hres2 : env.deleteResult t with
  | ok a => simp [safe_delete, refresh_token, hres, htok, hres2]
  | error e2 => simp [safe_delete, refresh_token, hres, htok, hres2]

/-! ### Claim theorems -/

/-- A wrapped GET whose first attempt (with token `"t0"`) fails with a
network error — a non-authentication failure — and which succeeds with
the refreshed token `"t1"`. -/
def netFailEnv : ClientEnv Nat :=
  { getResult := fun t => if t = "t1" then Except.ok 7 else Except.error PErr.net
    tokenResult := Except.ok "t1" }

/-- A record holding the stale token `"t0"`. -/
def staleInbox : Inbox := ⟨"u@x.tld", "pw", "t0", ∅⟩

/-- C2 counterexample: a call whose first attempt fails with a *network*
error (non-auth) is not surfaced immediately and uncaught — `safe_get`
catches it, performs a re-authentication and a retry, and here even returns
success.  The wrapper catches every exception class alike. -/
theorem nonauth_failure_not_surfaced :
    netFailEnv.getResult staleInbox.token = Except.error PErr.net ∧
    safe_get netFailEnv staleInbox =
      (Except.ok 7, ⟨"u@x.tld", "pw", "t1", ∅⟩, ⟨2, 1⟩) :=
  ⟨rfl, rfl⟩

/-- C2 (amended): a mail-provider client call whose first attempt fails is
*never* surfaced immediately, whatever the failure class: `safe_get` and
`safe_delete` catch any exception, perform exactly one re-authentication
and (when the refresh succeeds) exactly one retry, and surface only the
refresh's or the retry's failure — the original error is swallowed. -/
theorem client_failure_always_retried (α : Type) (env : ClientEnv α)
    (denv : DeleteEnv) (i : Inbox) (e e' : PErr)
    (hg : env.getResult i.token = Except.error e)
    (hd : denv.deleteResult i.token = Except.error e') :
    ((safe_get env i).2.2.reauthAttempts = 1 ∧
      (∀ e2, env.tokenResult = Except.error e2 →
        safe_get env i = (Except.error e2, i, ⟨1, 1⟩)) ∧
      (∀ t, env.tokenResult = Except.ok t →
        safe_get env i = (env.getResult t, { i with token := t }, ⟨2, 1⟩))) ∧
    ((safe_delete denv i).2.2.reauthAttempts = 1 ∧
      (∀ e2, denv.tokenResult = Except.error e2 →
        safe_delete denv i = (Except.error e2, i, ⟨1, 1⟩)) ∧
      (∀ t, denv.tokenResult = Except.ok t →
        safe_delete denv i =
          (denv.deleteResult t, { i with token := t }, ⟨2, 1⟩))) := by
  constructor
  · refine ⟨?_, fun e2 h2 => safe_get_refresh_fail env i e e2 hg h2,
      fun t ht => safe_get_retry env i e t hg ht⟩
    cases htok : env.tokenResult with
    | error e2 => rw [safe_get_refresh_fail env i e e2 hg htok]
    | ok t => rw [safe_get_retry env i e t hg htok]
  · refine ⟨?_, fun e2 h2 => safe_delete_refresh_fail denv i e' e2 hd h2,
      fun t ht => safe_delete_retry denv i e' t hd ht⟩
    cases htok : denv.tokenResult with
    | error e2 => rw [safe_delete_refresh_fail denv i e' e2 hd htok]
    | ok t => rw [safe_delete_retry denv i e' t hd htok]

/-- A wrapped DELETE that fails for every token. -/
def alwaysFailDelete : DeleteEnv :=
  { deleteResult := fun _ => Except.error PErr.http
    tokenResult := Except.ok "t1" }

/-- Witness for the amended C2 at concrete inputs: the first failure is
caught, one re-authentication happens, and the surfaced outcome is the
retry's. -/
theorem client_failure_always_retried_witness :
    (safe_get netFailEnv staleInbox).2.2.reauthAttempts = 1 ∧
    safe_get netFailEnv staleInbox =
      (netFailEnv.getResult "t1",
        { staleInbox with token := "t1" }, ⟨2, 1⟩) ∧
    safe_delete alwaysFailDelete staleInbox =
      (alwaysFailDelete.deleteResult "t1",
        { staleInbox with token := "t1" }, ⟨2, 1⟩) := by
  have h := client_failure_always_retried Nat netFailEnv alwaysFailDelete
    staleInbox PErr.net PErr.http rfl rfl
  exact ⟨h.1.1, h.1.2.2 "t1" rfl, h.2.2.2 "t1" rfl⟩

/-- C3: every wrapped authenticated call performs at most one
re-authentication and at most two raw attempts; a successful first attempt
returns at once with no re-authentication; a first failure followed by a
successful refresh performs exactly one retry, whose outcome — success or a
hard error — is surfaced with no further retries, so a stub failing twice
yields a hard error after a single re-authentication. -/
theorem auth_retry_bound (α : Type) (env : ClientEnv α) (i : Inbox) :
    (safe_get env i).2.2.reauthAttempts ≤ 1 ∧
    (safe_get env i).2.2.getAttempts ≤ 2 ∧
    (∀ a, env.getResult i.token = Except.ok a →
      safe_get env i = (Except.ok a, i, ⟨1, 0⟩)) ∧
    (∀ e t, env.getResult i.token = Except.error e →
      env.tokenResult = Except.ok t →
      safe_get env i = (env.getResult t, { i with token := t }, ⟨2, 1⟩)) ∧
    (∀ e t e2, env.getResult i.token = Except.error e →
      env.tokenResult = Except.ok t → env.getResult t = Except.error e2 →
      (safe_get env i).1 = Except.error e2 ∧
      (safe_get env i).2.2.reauthAttempts = 1) := by
  have hbound : (safe_get env i).2.2.reauthAttempts ≤ 1 ∧
      (safe_get env i).2.2.getAttempts ≤ 2 := by
    cases hres : env.getResult i.token with
    | ok a => rw [safe_get_first_ok env i a hres]; exact ⟨Nat.zero_le 1, Nat.le_succ 1⟩
    | error e =>
      cases htok : env.tokenResult with
      | error e2 => rw [safe_get_refresh_fail env i e e2 hres htok]; exact ⟨Nat.le_refl 1, Nat.le_succ 1⟩
      | ok t => rw [safe_get_retry env i e t hres htok]; exact ⟨Nat.le_refl 1, Nat.le_refl 2⟩
  refine ⟨hbound.1, hbound.2, fun a ha => safe_get_first_ok env i a ha,
    fun e t he ht => safe_get_retry env i e t he ht, fun e t e2 he ht h2 => ?_⟩
  rw [safe_get_retry env i e t he ht, h2]
  exact ⟨rfl, rfl⟩

/-- An authenticated GET that fails for every token: the fails-twice stub
of the spec's testable property. -/
def failTwiceEnv : ClientEnv Nat :=
  { getResult := fun _ => Except.error PErr.auth
    tokenResult := Except.ok "t1" }

/-- Witness for C3: on the fails-twice stub, the call surfaces a hard error
after exactly one re-authentication. -/
theorem auth_retry_bound_witness :
    (safe_get failTwiceEnv staleInbox).1 = Except.error PErr.auth ∧
    (safe_get failTwiceEnv staleInbox).2.2.reauthAttempts = 1 :=
  (auth_retry_bound Nat failTwiceEnv staleInbox).2.2.2.2
    PErr.auth "t1" PErr.auth rfl rfl rfl

/-- C7: the access-gate check returns true iff both fixed channels report an
active-membership status (member, administrator or owner); an erroring
membership query (`none`) is treated exactly like "not a member", so the
check is false whenever either query fails — it never returns true on an
erroring query. -/
theorem gate_fail_closed (q1 q2 : Option MemberStatus) :
    (joined_both q1 q2 = true ↔ activeStatus q1 ∧ activeStatus q2) ∧
    (q1 = none ∨ q2 = none → joined_both q1 q2 = false) := by
  constructor
  · cases q1 <;> cases q2 <;>
      simp [joined_both, is_member, activeStatus]
  · rintro (h | h) <;> subst h <;>
      simp [joined_both, is_member]

/-- Witness for C7: with the first channel's query erroring, the gate is
closed even though the second channel reports full membership. -/
theorem gate_fail_closed_witness :
    joined_both none (some MemberStatus.member) = false :=
  (gate_fail_closed none (some MemberStatus.member)).2 (Or.inl rfl)

/-- C9: serializing a mailbox record to the persisted JSON shape and
deserializing it back restores the record exactly — address, password and
session token unchanged, the seen-id set rebuilt from the serialized list —
and deserialization is invariant under permutation of the stored seen-id
list, so element order in the serialized list is irrelevant. -/
theorem inbox_json_round_trip (i : Inbox) (j : InboxJson)
    (l l' : List String) (hperm : l.Perm l') :
    Inbox.from_json (Inbox.to_json i) = i ∧
    Inbox.from_json { j with seen_message_ids := some l } =
      Inbox.from_json { j with seen_message_ids := some l' } := by
  constructor
  · obtain ⟨addr, pw, tok, seen⟩ := i
    simp [Inbox.to_json, Inbox.from_json, Finset.sort_toFinset]
  · simp [Inbox.from_json, List.toFinset_eq_of_perm _ _ hperm]

/-- Witness for C9: a concrete record with a two-element seen set
round-trips, and a reordering of a stored seen-id list deserializes to the
same record. -/
theorem inbox_json_round_trip_witness :
    Inbox.from_json (Inbox.to_json
      ⟨"u@x.tld", "pw", "tok", {"m1", "m2"}⟩) =
      ⟨"u@x.tld", "pw", "tok", {"m1", "m2"}⟩ ∧
    Inbox.from_json ⟨"u@x.tld", "pw", some "tok", some ["m2", "m1"]⟩ =
      Inbox.from_json ⟨"u@x.tld", "pw", some "tok", some ["m1", "m2"]⟩ :=
  inbox_json_round_trip ⟨"u@x.tld", "pw", "tok", {"m1", "m2"}⟩
    ⟨"u@x.tld", "pw", some "tok", some []⟩ ["m2", "m1"] ["m1", "m2"]
    (by decide)

/-- C10: when the listing is non-empty but the newest entry's id is missing
or empty, the `/inbox` handler reports the could-not-read outcome and
returns with the record unchanged and no deletion requested; the result
does not depend on `pv.full` or `pv.source`, so no full-message fetch can
influence it. -/
theorem inbox_no_id_early_return (pv : ProviderView) (i : Inbox)
    (newest : Msg) (rest : List Msg) (hmsgs : pv.msgs = newest :: rest)
    (hid : strTruthy newest.id = false) :
    inbox_fetch pv i = Except.ok (InboxOutcome.couldNotRead, i, []) :=
  inbox_fetch_no_id pv i newest rest hmsgs hid

/-- Witness for C10: a one-element listing whose entry has an empty id, with
the full-message fetch set to fail: the handler still returns the
could-not-read outcome untouched. -/
theorem inbox_no_id_early_return_witness :
    inbox_fetch
      ⟨[⟨some ""⟩], Except.error (), Except.error (), fun _ => false⟩
      ⟨"u@x.tld", "pw", "tok", ∅⟩ =
      Except.ok (InboxOutcome.couldNotRead, ⟨"u@x.tld", "pw", "tok", ∅⟩, []) :=
  inbox_no_id_early_return _ _ ⟨some ""⟩ [] rfl rfl

theorem getD_mod_mem (l : List Char) (h : l ≠ []) (n : Nat) (d : Char) :
    l.getD (n % l.length) d ∈ l := by
  have hlt : n % l.length < l.length := Nat.mod_lt _ (List.length_pos.mpr h)
  rw [List.getD_eq_getElem?_getD, List.getElem?_eq_getElem hlt, Option.getD_some]
  exact List.getElem_mem hlt

theorem randomString_length (alphabet : List Char) (draws : Nat → Nat)
    (n : Nat) : (randomString alphabet draws n).length = n := by
  simp [randomString, String.length]

theorem randomString_mem (alphabet : List Char) (h : alphabet ≠ [])
    (draws : Nat → Nat) (n : Nat) :
    ∀ c ∈ (randomString alphabet draws n).toList, c ∈ alphabet := by
  intro c hc
  simp only [randomString, String.toList, String.data, List.mem_map,
    List.mem_range] at hc
  obtain ⟨k, _, hck⟩ := hc
  rw [← hck]
  exact getD_mod_mem alphabet h (draws k) 'a'

theorem create_inbox_ok (env : ProvisionEnv) (d : String) (ds : List String)
    (t : String) (hdom : env.domains = d :: ds) (hacc : env.accountsOk = true)
    (htok : env.tokenResult = Except.ok t) :
    create_inbox env = Except.ok
      ⟨randomString lowercaseDigits env.localDraws 10 ++ "@" ++ d,
       randomString lettersDigits env.passDraws 16, t, ∅⟩ := by
  simp [create_inbox, hdom, hacc, htok]

theorem provision_ok (st : StateMap) (uid : String) (env : ProvisionEnv)
    (ib : Inbox) (hnone : st uid = none)
    (hc : create_inbox env = Except.ok ib) :
    provision st uid env =
      Except.ok (ib, fun u => if u = uid then some ib else st u) := by
  simp [provision, hnone, hc]

/-- C8: provisioning fails with the already-exists refusal when a record is
present; otherwise it produces a record whose local-part is 10 characters
drawn from lowercase letters and digits, whose password is 16 characters
drawn from letters and digits, whose seen-id set is empty, and stores it
under the user's key without touching any other user — leaving the user
with exactly one active record. -/
theorem provision_spec (st : StateMap) (uid : String) (env : ProvisionEnv) :
    ((st uid).isSome →
      provision st uid env = Except.error ProvisionErr.alreadyExists) ∧
    (st uid = none → ∀ d ds t, env.domains = d :: ds →
      env.accountsOk = true → env.tokenResult = Except.ok t →
      ∃ ib st', provision st uid env = Except.ok (ib, st') ∧
        st' uid = some ib ∧
        (∀ v, v ≠ uid → st' v = st v) ∧
        ib.seen_message_ids = ∅ ∧
        ib.token = t ∧
        ib.address = randomString lowercaseDigits env.localDraws 10
          ++ "@" ++ d ∧
        ib.password = randomString lettersDigits env.passDraws 16 ∧
        (randomString lowercaseDigits env.localDraws 10).length = 10 ∧
        (∀ c ∈ (randomString lowercaseDigits env.localDraws 10).toList,
          c ∈ lowercaseDigits) ∧
        ib.password.length = 16 ∧
        (∀ c ∈ ib.password.toList, c ∈ lettersDigits)) := by
  constructor
  · intro hsome
    obtain ⟨ib0, hib0⟩ := Option.isSome_iff_exists.mp hsome
    simp [provision, hib0]
  · intro hnone d ds t hdom hacc htok
    refine ⟨_, _,
      provision_ok st uid env _ hnone (create_inbox_ok env d ds t hdom hacc htok),
      by simp, ?_, rfl, rfl, rfl, rfl, randomString_length _ _ _,
      randomString_mem _ (by decide) _ _, randomString_length _ _ _,
      randomString_mem _ (by decide) _ _⟩
    intro v hv
    simp [hv]

/-- An empty record store. -/
def freshStore : StateMap := fun _ => none

/-- A provisioning environment with one domain and fixed random streams. -/
def demoProvisionEnv : ProvisionEnv :=
  { domains := ["mail.tm"]
    localDraws := fun k => 7 * k + 3
    passDraws := fun k => 11 * k + 5
    accountsOk := true
    tokenResult := Except.ok "tok" }

/-- Witness for C8: provisioning a fresh user on an empty store succeeds
and stores a record with an empty seen set under that user's key. -/
theorem provision_spec_witness :
    ∃ ib st', provision freshStore "42" demoProvisionEnv =
        Except.ok (ib, st') ∧
      st' "42" = some ib ∧ ib.seen_message_ids = ∅ ∧ ib.token = "tok" := by
  obtain ⟨ib, st', h1, h2, h3, h4, h5, hrest⟩ :=
    (provision_spec freshStore "42" demoProvisionEnv).2 rfl
      "mail.tm" [] "tok" rfl rfl rfl
  exact ⟨ib, st', h1, h2, h4, h5⟩

/-- A one-message listing whose message is already seen; the full and
source fetches are set to fail to show they are not consulted. -/
def seenPv : ProviderView :=
  ⟨[⟨some "m1"⟩], Except.error (), Except.error (), fun _ => false⟩

/-- A record that has already seen message `"m1"`. -/
def seenInbox : Inbox := ⟨"u@x.tld", "pw", "tok", {"m1"}⟩

/-- C4 counterexample: in the background poller path a successful listing
with the NoNewMail outcome requests *no* deletion at all — `notify_newest`
returns before its deletion loop — although message `"m1"` is listed and
would be a deletion target. -/
theorem notify_no_deletion_on_no_new_mail :
    deletionTargets seenPv.msgs = ["m1"] ∧
    notify_fetch seenPv seenInbox =
      Except.ok (NotifyOutcome.silent, seenInbox, []) :=
  ⟨rfl, rfl⟩

/-- C4 (amended): deletion of every listed message is requested after a
successful listing in the `/inbox` path exactly when the outcome is
NoNewMail or NewMail (not after Empty or could-not-read outcomes), and in
the background poller path only when the outcome is a NewMail delivery —
the poller's Empty, no-id and NoNewMail outcomes request no deletion.
Individual deletion failures never influence the outcome, the record, or
the set of requested deletions. -/
theorem deletion_policy (pv : ProviderView) (i : Inbox) (m : String)
    (g : String → Bool) :
    (pv.msgs = [] →
      inbox_fetch pv i = Except.ok (InboxOutcome.empty, i, []) ∧
      notify_fetch pv i = Except.ok (NotifyOutcome.silent, i, [])) ∧
    (∀ newest rest, pv.msgs = newest :: rest → strTruthy newest.id = false →
      inbox_fetch pv i = Except.ok (InboxOutcome.couldNotRead, i, []) ∧
      notify_fetch pv i = Except.ok (NotifyOutcome.silent, i, [])) ∧
    (newestId pv = some m → m ≠ "" → m ∈ i.seen_message_ids →
      inbox_fetch pv i =
        Except.ok (InboxOutcome.noNewMail, i, deletionTargets pv.msgs) ∧
      notify_fetch pv i = Except.ok (NotifyOutcome.silent, i, [])) ∧
    (∀ full, newestId pv = some m → m ≠ "" → m ∉ i.seen_message_ids →
      pv.full = Except.ok full →
      inbox_fetch pv i = Except.ok
        (InboxOutcome.newMail (from_line full) (subject_line full)
          (inboxBody full pv.source),
         { i with seen_message_ids := insert m i.seen_message_ids },
         deletionTargets pv.msgs) ∧
      (∀ body, notifyBodyE full pv.source = Except.ok body →
        notify_fetch pv i = Except.ok
          (NotifyOutcome.delivered (from_line full) (subject_line full) body,
           { i with seen_message_ids := insert m i.seen_message_ids },
           deletionTargets pv.msgs))) ∧
    (inbox_fetch { pv with deleteFails := g } i = inbox_fetch pv i ∧
      notify_fetch { pv with deleteFails := g } i = notify_fetch pv i) := by
  refine ⟨fun h => ⟨inbox_fetch_empty pv i h, notify_fetch_empty pv i h⟩,
    fun newest rest h1 h2 => ⟨inbox_fetch_no_id pv i newest rest h1 h2,
      notify_fetch_no_id pv i newest rest h1 h2⟩,
    fun h1 h2 h3 => ⟨inbox_fetch_seen pv i m h1 h2 h3,
      notify_fetch_seen pv i m h1 h2 h3⟩,
    fun full h1 h2 h3 h4 => ⟨inbox_fetch_unseen pv i m full h1 h2 h3 h4,
      fun body hb => notify_fetch_unseen pv i m full body h1 h2 h3 h4 hb⟩,
    ?_, ?_⟩
  · obtain ⟨msgs, fl, src, df⟩ := pv
    rfl
  · obtain ⟨msgs, fl, src, df⟩ := pv
    rfl

/-- Witness for C4 (amended) at concrete inputs: on an already-seen
message the `/inbox` path requests deletion of the listed message while the
poller path requests none, and flipping every deletion to a failure leaves
the poller result unchanged. -/
theorem deletion_policy_witness :
    inbox_fetch seenPv seenInbox =
      Except.ok (InboxOutcome.noNewMail, seenInbox, deletionTargets seenPv.msgs) ∧
    notify_fetch seenPv seenInbox =
      Except.ok (NotifyOutcome.silent, seenInbox, []) ∧
    notify_fetch { seenPv with deleteFails := fun _ => true } seenInbox =
      notify_fetch seenPv seenInbox := by
  have h := deletion_policy seenPv seenInbox "m1" (fun _ => true)
  have hc := h.2.2.1 rfl (by decide) (by decide)
  exact ⟨hc.1, hc.2, h.2.2.2.2.2⟩

/-- A full message whose structured text field is empty; subject and sender
present. -/
def blankTextFull : Full := ⟨some "Hello", some "s@x.y", none, some ""⟩

/-- A one-message listing of unseen `"m2"` whose full fetch succeeds with a
blank text field and whose raw source is empty. -/
def blankSrcPv : ProviderView :=
  ⟨[⟨some "m2"⟩], Except.ok blankTextFull, Except.ok "", fun _ => false⟩

/-- A one-message listing of unseen `"m2"` whose full fetch succeeds with a
blank text field and whose raw-source fetch fails. -/
def srcErrPv : ProviderView :=
  ⟨[⟨some "m2"⟩], Except.ok blankTextFull, Except.error (), fun _ => false⟩

/-- A record that has seen nothing. -/
def freshInbox : Inbox := ⟨"u@x.tld", "pw", "tok", ∅⟩

/-- C5 counterexample: with a blank structured text field, (a) in the
`/inbox` path a *blank* raw source produces the empty body, not the
literal no-body placeholder, and (b) in the poller path a *failing*
raw-source fetch makes the body-extraction step raise to the caller
instead of never raising. -/
theorem body_fallback_refuted :
    inbox_fetch blankSrcPv freshInbox = Except.ok
      (InboxOutcome.newMail "<s@x.y>" "Hello" "",
       ⟨"u@x.tld", "pw", "tok", insert "m2" ∅⟩, ["m2"]) ∧
    ("" : String) ≠ "(no body)" ∧
    notify_fetch srcErrPv freshInbox = Except.error () :=
  ⟨rfl, by decide, rfl⟩

/-- C5 (amended): with a blank structured text field, both paths use the
trimmed raw source as body when the source fetch succeeds non-blank; the
`/inbox` path never raises — a failed source fetch yields the no-body
placeholder, while a blank source yields the empty body (not the
placeholder); the poller path yields the placeholder on a blank source but
*raises* when the source fetch fails.  A non-blank text field is used
directly by both paths. -/
theorem body_fallback_amended (full : Full) (src : String)
    (pv : ProviderView) (i : Inbox) (m : String) :
    (pyStrip (orElseStr full.text "") = "" →
      inboxBody full (Except.ok src) = pyStrip src ∧
      inboxBody full (Except.error ()) = "(no body)" ∧
      (pyStrip src ≠ "" →
        notifyBodyE full (Except.ok src) = Except.ok (pyStrip src)) ∧
      (pyStrip src = "" →
        notifyBodyE full (Except.ok src) = Except.ok "(no body)") ∧
      notifyBodyE full (Except.error ()) = Except.error ()) ∧
    (pyStrip (orElseStr full.text "") ≠ "" →
      inboxBody full pv.source = pyStrip (orElseStr full.text "") ∧
      notifyBodyE full pv.source =
        Except.ok (pyStrip (orElseStr full.text ""))) ∧
    (newestId pv = some m → m ≠ "" → m ∉ i.seen_message_ids →
      pv.full = Except.ok full →
      inbox_fetch pv i = Except.ok
        (InboxOutcome.newMail (from_line full) (subject_line full)
          (inboxBody full pv.source),
         { i with seen_message_ids := insert m i.seen_message_ids },
         deletionTargets pv.msgs)) ∧
    (newestId pv = some m → m ≠ "" → m ∉ i.seen_message_ids →
      pv.full = Except.ok full → pv.source = Except.error () →
      pyStrip (orElseStr full.text "") = "" →
      notify_fetch pv i = Except.error ()) := by
  refine ⟨?_, ?_,
    fun h1 h2 h3 h4 => inbox_fetch_unseen pv i m full h1 h2 h3 h4,
    fun h1 h2 h3 h4 h5 hb => notify_fetch_body_error pv i m full h1 h2 h3 h4
      (by simp [notifyBodyE, hb, h5])⟩
  · intro hb
    refine ⟨by simp [inboxBody, hb], by simp [inboxBody, hb], ?_, ?_,
      by simp [notifyBodyE, hb]⟩
    · intro hs
      simp [notifyBodyE, hb, hs]
    · intro hs
      simp [notifyBodyE, hb, hs]
  · intro hb
    exact ⟨by simp [inboxBody, hb], by simp [notifyBodyE, hb]⟩

/-- Witness for C5 (amended) at concrete inputs: blank text with a
non-blank source uses the source; a failed source fetch yields the
placeholder in the `/inbox` path and raises in the poller path. -/
theorem body_fallback_amended_witness :
    inboxBody blankTextFull (Except.ok "raw") = pyStrip "raw" ∧
    inboxBody blankTextFull (Except.error ()) = "(no body)" ∧
    notify_fetch srcErrPv freshInbox = Except.error () := by
  have h := body_fallback_amended blankTextFull "raw" srcErrPv freshInbox "m2"
  exact ⟨(h.1 rfl).1, (h.1 rfl).2.1,
    h.2.2.2 rfl (by decide) (by decide) rfl rfl rfl⟩

/-- All calls after the first, on an unchanged newest id, return NoNewMail
and leave the record unchanged. -/
theorem fetchSeq_all_seen (i : Inbox) (m : String) (pvs : List ProviderView)
    (hm : m ≠ "") (hall : ∀ pv ∈ pvs, newestId pv = some m)
    (hmem : m ∈ i.seen_message_ids) :
    fetchSeq i pvs = (pvs.map fun _ => Except.ok InboxOutcome.noNewMail, i) := by
  induction pvs with
  | nil => rfl
  | cons pv rest ih =>
    simp only [fetchSeq,
      inbox_fetch_seen pv i m (hall pv (List.mem_cons_self pv rest)) hm hmem,
      ih fun q hq => hall q (List.mem_cons_of_mem pv hq), List.map_cons]

/-- C6: over any sequence of fetch-latest calls during which the provider's
newest message id stays the same (and the first full fetch succeeds), only
the first call returns NewMail and it adds that id to the seen set; every
subsequent call returns NoNewMail, and the final record equals the one
after the first call — the seen set is never changed again. -/
theorem dedup_idempotent (i : Inbox) (pv : ProviderView)
    (pvs : List ProviderView) (m : String) (full : Full) (hm : m ≠ "")
    (h1 : newestId pv = some m) (hfull : pv.full = Except.ok full)
    (hall : ∀ q ∈ pvs, newestId q = some m)
    (hunseen : m ∉ i.seen_message_ids) :
    fetchSeq i (pv :: pvs) =
      (Except.ok (InboxOutcome.newMail (from_line full) (subject_line full)
          (inboxBody full pv.source)) ::
        pvs.map (fun _ => Except.ok InboxOutcome.noNewMail),
       { i with seen_message_ids := insert m i.seen_message_ids }) := by
  have h2 := fetchSeq_all_seen
    { i with seen_message_ids := insert m i.seen_message_ids } m pvs hm hall
    (by simp)
  simp only [fetchSeq, inbox_fetch_unseen pv i m full h1 hm hunseen hfull, h2]

/-- The full message used by the C6 witness. -/
def wFull : Full := ⟨some "hello", some "a@b.c", none, some "body"⟩

/-- A one-message listing of `"m3"` whose full fetch succeeds. -/
def wPv : ProviderView :=
  ⟨[⟨some "m3"⟩], Except.ok wFull, Except.error (), fun _ => false⟩

/-- Witness for C6: two consecutive calls with the same newest id — the
first returns NewMail and marks the id, the second returns NoNewMail. -/
theorem dedup_idempotent_witness :
    fetchSeq freshInbox [wPv, wPv] =
      (Except.ok (InboxOutcome.newMail (from_line wFull) (subject_line wFull)
          (inboxBody wFull wPv.source)) ::
        [wPv].map (fun _ => Except.ok InboxOutcome.noNewMail),
       { freshInbox with
          seen_message_ids := insert "m3" freshInbox.seen_message_ids }) :=
  dedup_idempotent freshInbox wPv [wPv] "m3" wFull (by decide) rfl rfl
    (by intro q hq; rw [List.mem_singleton] at hq; subst hq; rfl) (by decide)

/-- A per-user notifier stub that raises for user `"1001"` and succeeds for
everyone else. -/
def twoUserNotify : String → Except Unit Unit :=
  fun u => if u = "1001" then Except.error () else Except.ok ()

/-- C1 counterexample: in a tick over verified users `"1001"` and `"1002"`
where `"1001"`\'s check raises, user `"1002"` — whose own check would
succeed — is *not* processed: the exception aborts the rest of the tick,
because the `try/except` wraps the whole per-user loop. -/
theorem tick_isolation_refuted :
    twoUserNotify "1002" = Except.ok () ∧
    poll_tick ["1001", "1002"] (fun _ => true) twoUserNotify = [] ∧
    "1002" ∉ poll_tick ["1001", "1002"] (fun _ => true) twoUserNotify :=
  ⟨rfl, rfl, by decide⟩

/-- C1 (amended): when one user's check raises during a poller tick, the
verified users *before* it in iteration order still receive their outcome,
and every user after it is skipped for that tick — the exception is caught
at the tick level (so the loop survives to the next tick), not per user. -/
theorem tick_isolation_amended (pre post : List String) (k : String)
    (verified : String → Bool) (notify : String → Except Unit Unit)
    (hk : verified k = true) (hkerr : notify k = Except.error ())
    (hpre : ∀ u ∈ pre, verified u = true → notify u = Except.ok ()) :
    poll_tick (pre ++ k :: post) verified notify =
      pre.filter (fun u => verified u) := by
  induction pre with
  | nil => simp [poll_tick, hk, hkerr]
  | cons u rest ih =>
    have ih' := ih fun v hv hvv => hpre v (List.mem_cons_of_mem u hv) hvv
    by_cases hu : verified u = true
    · have hnu := hpre u (List.mem_cons_self u rest) hu
      simp [poll_tick, hu, hnu, ih', List.filter_cons]
    · simp [poll_tick, hu, ih', List.filter_cons]

/-- Witness for C1 (amended): with users `"1000"`, `"1001"`, `"1002"` all
verified and `"1001"` raising, exactly `"1000"` is processed. -/
theorem tick_isolation_amended_witness :
    poll_tick (["1000"] ++ "1001" :: ["1002"]) (fun _ => true) twoUserNotify =
      ["1000"].filter (fun _ => true) :=
  tick_isolation_amended ["1000"] ["1002"] "1001" (fun _ => true) twoUserNotify
    rfl rfl
    (by intro u hu h; rw [List.mem_singleton] at hu; subst hu; rfl)

end GhostMail
